import Mathlib

/-!
Verification development for the router outlet of
src/packages/router/src/directives/router_outlet.ts.

The TypeScript class RouterOutlet is shallowly embedded as a Lean structure
RouterOutlet together with pure state-passing functions for each of its
methods and getters. Exceptions are modelled with an explicit error
inductive; each stateful method returns both the (possibly mutated) object
state at the moment of return or throw and an Except value, mirroring the
semantics of a thrown exception leaving the mutated object behind.
EventEmitter emissions are modelled as append-only logs in the state.
-/

/-- Data carried by a route snapshot (the TypeScript Data object);
the empty list models the empty object literal. -/
def Data : Type := List (String × Nat)

deriving instance DecidableEq for Data

/-- Component descriptor stored in a route configuration: either the
reserved empty-outlet placeholder component or a real component class
identified by a numeral. -/
inductive ComponentType where
  | emptyOutletCmp : ComponentType
  | comp (id : Nat) : ComponentType
  deriving DecidableEq

/-- Route configuration node; its component field is what
activateWith instantiates. -/
structure RouteConfig where
  component : ComponentType
  deriving DecidableEq

/-- Route snapshot: routeConfig may be null (the source reads it through a
non-null assertion), and carries the data payload. -/
structure Snapshot where
  routeConfig : Option RouteConfig
  data : Data
  deriving DecidableEq

/-- ActivatedRoute as consumed by the outlet: the future snapshot used
during activation and the current snapshot used by activatedRouteData. -/
structure ActivatedRoute where
  _futureSnapshot : Snapshot
  snapshot : Snapshot
  deriving DecidableEq

/-- A component factory resolver, modelled as a finite table from component
descriptors to factory tags; a missing entry models the throwing failure of
resolveComponentFactory. -/
def CFResolver : Type := List (ComponentType × Nat)

deriving instance DecidableEq for CFResolver

/-- A component factory produced by a resolver. -/
structure Factory where
  componentType : ComponentType
  tag : Nat
  deriving DecidableEq

/-- Lookup of a component descriptor in a resolver table. -/
def cfLookup : CFResolver → ComponentType → Option Nat
  | [], _ => none
  | (c, t) :: rest, c' => if c = c' then some t else cfLookup rest c'

/-- resolveComponentFactory: none models the thrown
no-component-factory-found error. -/
def resolveComponentFactory (r : CFResolver) (c : ComponentType) : Option Factory :=
  (cfLookup r c).map (fun t => ⟨c, t⟩)

/-- Errors thrown by the outlet code.
notActivated models the message Outlet is not activated;
alreadyActivated models Cannot activate an already activated outlet;
nullRouteConfig models the TypeError raised when snapshot.routeConfig is
null and read through the non-null assertion; factoryNotFound models the
error thrown by resolveComponentFactory; tokenNotFound models the error an
injector throws on a miss with no default value. -/
inductive OutletError where
  | notActivated
  | alreadyActivated
  | nullRouteConfig
  | factoryNotFound
  | tokenNotFound
  deriving DecidableEq

mutual

/-- A component instance produced by view creation: either a real component
(carrying the tag of the factory that made it) or an instance of the
pass-through proxy EmptyOutletComponent, whose ViewChild router outlet may
or may not have resolved yet (none models the unset ViewChild). -/
inductive Instance where
  | real (tag : Nat) : Instance
  | emptyOutlet (outlet : Option NestedOutlet) : Instance

/-- The nested router outlet hosted inside a proxy, restricted to the two
fields its getters read: the activated component ref and the activated
route. -/
inductive NestedOutlet where
  | mk (activated : Option CompRef) (route : Option ActivatedRoute) : NestedOutlet

/-- A ComponentRef: the host view identity and the instance it wraps. -/
inductive CompRef where
  | mk (refId : Nat) (inst : Instance) : CompRef

end

/-- Host view identity of a component ref. -/
def CompRef.refId : CompRef → Nat
  | .mk i _ => i

/-- Instance wrapped by a component ref. -/
def CompRef.inst : CompRef → Instance
  | .mk _ c => c

/-- Activated component ref of a nested outlet. -/
def NestedOutlet.activatedOf : NestedOutlet → Option CompRef
  | .mk a _ => a

/-- Activated route of a nested outlet. -/
def NestedOutlet.routeOf : NestedOutlet → Option ActivatedRoute
  | .mk _ r => r

/-- Unwrapping applied by the component getter to an activated instance: a
real instance is returned as is; a proxy instance delegates to its nested
outlet's component accessor, which returns the null sentinel when the
proxy's ViewChild outlet is unset, throws when the nested outlet is not
activated, and otherwise unwraps the nested activated instance in turn. -/
def unwrapInstance : Instance → Except OutletError (Option Instance)
  | .real t => .ok (some (.real t))
  | .emptyOutlet none => .ok none
  | .emptyOutlet (some (.mk none _)) => .error .notActivated
  | .emptyOutlet (some (.mk (some (.mk _ i)) _)) => unwrapInstance i

/-- The component getter shared by the outlet and by nested outlets: given
the activated field, throw when null, otherwise return the unwrapped
instance. -/
def componentOf : Option CompRef → Except OutletError (Option Instance)
  | none => .error .notActivated
  | some ref => unwrapInstance ref.inst

/-- The activatedRoute getter logic shared by the outlet and nested
outlets: throws when not activated, otherwise returns the stored route. -/
def routeOf (act : Option CompRef) (r : Option ActivatedRoute) :
    Except OutletError (Option ActivatedRoute) :=
  match act with
  | none => .error .notActivated
  | some _ => .ok r

/-- Component accessor of the pass-through proxy EmptyOutletComponent:
null sentinel when the ViewChild outlet is unset, else delegates to the
nested outlet. -/
def emptyComponent : Option NestedOutlet → Except OutletError (Option Instance)
  | none => .ok none
  | some n => componentOf n.activatedOf

/-- ActivatedRoute accessor of the pass-through proxy: null sentinel when
the ViewChild outlet is unset, else delegates to the nested outlet. -/
def emptyActivatedRoute : Option NestedOutlet → Except OutletError (Option ActivatedRoute)
  | none => .ok none
  | some n => routeOf n.activatedOf n.routeOf

/-- Route-data accessor of the pass-through proxy: empty object when its
activatedRoute accessor yields null, else the snapshot data; an error of
the underlying accessor propagates. -/
def emptyActivatedRouteData (oo : Option NestedOutlet) : Except OutletError Data :=
  match emptyActivatedRoute oo with
  | .error e => .error e
  | .ok none => .ok []
  | .ok (some r) => .ok r.snapshot.data

/-- Truth of the test c instanceof EmptyOutletComponent applied to the
possibly-null value returned by the component getter. -/
def isEmptyInstance : Option Instance → Bool
  | some (.emptyOutlet _) => true
  | _ => false

mutual

/-- The hierarchical context registry scope: a finite map from outlet names
to outlet contexts. -/
inductive ChildrenOutletContexts where
  | mk (entries : List (String × OutletContext)) : ChildrenOutletContexts

/-- An outlet context record: pending route, optional resolver override,
optional detached-view handle, and the child registry scope nested under
the outlet's name. The live outlet back-reference is not needed by any
outlet method modelled here. -/
inductive OutletContext where
  | mk (route : Option ActivatedRoute) (resolver : Option CFResolver)
       (attachRef : Option CompRef) (children : ChildrenOutletContexts) : OutletContext

end

/-- Entries of a registry scope. -/
def ChildrenOutletContexts.entries : ChildrenOutletContexts → List (String × OutletContext)
  | .mk e => e

/-- Pending route of a context. -/
def OutletContext.route : OutletContext → Option ActivatedRoute
  | .mk r _ _ _ => r

/-- Resolver override of a context. -/
def OutletContext.resolver : OutletContext → Option CFResolver
  | .mk _ r _ _ => r

/-- Detached-view handle of a context. -/
def OutletContext.attachRef : OutletContext → Option CompRef
  | .mk _ _ a _ => a

/-- Child registry scope of a context. -/
def OutletContext.children : OutletContext → ChildrenOutletContexts
  | .mk _ _ _ c => c

/-- Name lookup over the entries of a registry scope. -/
def lookupContext : List (String × OutletContext) → String → Option OutletContext
  | [], _ => none
  | (k, v) :: rest, n => if k = n then some v else lookupContext rest n

/-- Modelled from the spec: getContext(name) of the Context Registry
(router_outlet_context.ts is not under src/); returns the context stored
for the name, if any. -/
def ChildrenOutletContexts.getContext (c : ChildrenOutletContexts) (name : String) :
    Option OutletContext :=
  lookupContext c.entries name

/-- Modelled from the spec: getOrCreateContext(name) of the Context
Registry (router_outlet_context.ts is not under src/); returns the context
for the name together with the possibly-extended registry, creating and
storing a fresh empty context when the name is absent. -/
def ChildrenOutletContexts.getOrCreateContext (c : ChildrenOutletContexts) (name : String) :
    OutletContext × ChildrenOutletContexts :=
  match c.getContext name with
  | some ctx => (ctx, c)
  | none =>
      let fresh := OutletContext.mk none none none (ChildrenOutletContexts.mk [])
      (fresh, ChildrenOutletContexts.mk (c.entries ++ [(name, fresh)]))

/-- Injection tokens as discriminated by OutletInjector.get: the
ActivatedRoute token, the ChildrenOutletContexts token, or any other
token. -/
inductive InjToken where
  | activatedRouteToken
  | childrenOutletContextsToken
  | otherToken (id : Nat)
  deriving DecidableEq

/-- Values an injector can produce. -/
inductive InjValue where
  | routeV (r : ActivatedRoute)
  | contextsV (c : ChildrenOutletContexts)
  | plainV (n : Nat)

/-- A parent injector, modelled as a finite token-to-value table with the
standard default-value-on-miss convention. -/
def ParentInjector : Type := List (InjToken × InjValue)

/-- Token lookup in a parent injector table. -/
def pLookup : ParentInjector → InjToken → Option InjValue
  | [], _ => none
  | (k, v) :: rest, t => if k = t then some v else pLookup rest t

/-- Resolution against a parent injector: a hit returns the stored value;
a miss returns the notFoundValue when one was passed and throws
otherwise. -/
def parentGet (p : ParentInjector) (token : InjToken) (notFoundValue : Option InjValue) :
    Except OutletError InjValue :=
  match pLookup p token with
  | some v => .ok v
  | none =>
      match notFoundValue with
      | some d => .ok d
      | none => .error .tokenNotFound

/-- The OutletInjector built by activateWith: the activated route, the
child registry scope, and the parent injector it wraps. -/
structure OutletInjector where
  route : ActivatedRoute
  childContexts : ChildrenOutletContexts
  parent : ParentInjector

/-- OutletInjector.get: the ActivatedRoute token resolves to the stored
route, the ChildrenOutletContexts token to the stored child scope, and any
other token delegates to the parent injector with the notFoundValue passed
through unchanged. -/
def OutletInjector.get (i : OutletInjector) (token : InjToken)
    (notFoundValue : Option InjValue) : Except OutletError InjValue :=
  if token = InjToken.activatedRouteToken then .ok (.routeV i.route)
  else if token = InjToken.childrenOutletContextsToken then .ok (.contextsV i.childContexts)
  else parentGet i.parent token notFoundValue

/-- The RouterOutlet state: the two nullable fields of the class, its
constructor-supplied collaborators, and observation logs for the effects
the methods perform on them (view container contents, event emissions,
destroyed views, change-detection marking, proxy event-relay
subscription). -/
structure RouterOutlet where
  activated : Option CompRef
  _activatedRoute : Option ActivatedRoute
  name : String
  resolver : CFResolver
  parentContexts : ChildrenOutletContexts
  location : List Nat
  locationInjector : ParentInjector
  nextRefId : Nat
  activateEvents : List (Option Instance)
  deactivateEvents : List (Option Instance)
  destroyedViews : List Nat
  markedForCheck : Bool
  relaySubscribed : Bool
  lastInjector : Option OutletInjector

/-- Result of a stateful outlet method: the object state at the moment of
return or throw, and the returned value or thrown error. -/
structure MResult (α : Type) where
  state : RouterOutlet
  result : Except OutletError α

/-- isActivated getter: a boolean, never throws. -/
def RouterOutlet.isActivated (s : RouterOutlet) : Bool :=
  s.activated.isSome

/-- component getter of RouterOutlet: throws when not activated; unwraps a
proxy instance through its nested outlet. -/
def RouterOutlet.component (s : RouterOutlet) : Except OutletError (Option Instance) :=
  componentOf s.activated

/-- activatedRoute getter of RouterOutlet: throws when not activated, else
returns the stored route field. -/
def RouterOutlet.activatedRoute (s : RouterOutlet) :
    Except OutletError (Option ActivatedRoute) :=
  routeOf s.activated s._activatedRoute

/-- activatedRouteData getter of RouterOutlet: data of the stored route's
snapshot, or the empty object when the route field is null; never
throws. -/
def RouterOutlet.activatedRouteData (s : RouterOutlet) : Data :=
  match s._activatedRoute with
  | some r => r.snapshot.data
  | none => []

/-- detach: throws when not activated; otherwise removes the last view of
the container without destroying it, clears both fields, and returns the
component ref. -/
def RouterOutlet.detach (s : RouterOutlet) : MResult CompRef :=
  match s.activated with
  | none => ⟨s, .error .notActivated⟩
  | some ref =>
      ⟨{s with activated := none, _activatedRoute := none,
               location := s.location.dropLast}, .ok ref⟩

/-- attach: unconditionally installs the given component ref and route and
appends the ref's host view to the container; performs no state check,
destroys nothing, and emits nothing. -/
def RouterOutlet.attach (s : RouterOutlet) (ref : CompRef) (activatedRoute : ActivatedRoute) :
    RouterOutlet :=
  {s with activated := some ref, _activatedRoute := some activatedRoute,
          location := s.location ++ [ref.refId]}

/-- deactivate: no-op when not activated. Otherwise reads the (unwrapping)
component getter — whose error, if any, propagates before any mutation —
then destroys the activated view (removing its host view from the
container), clears both fields, and emits a deactivate event with the
captured component unless that value is an instance of the proxy
component. -/
def RouterOutlet.deactivate (s : RouterOutlet) : MResult Unit :=
  match s.activated with
  | none => ⟨s, .ok ()⟩
  | some ref =>
      match componentOf s.activated with
      | .error e => ⟨s, .error e⟩
      | .ok c =>
          let s1 := {s with activated := none, _activatedRoute := none,
                            destroyedViews := s.destroyedViews ++ [ref.refId],
                            location := s.location.erase ref.refId}
          if isEmptyInstance c then ⟨s1, .ok ()⟩
          else ⟨{s1 with deactivateEvents := s1.deactivateEvents ++ [c]}, .ok ()⟩

/-- Insertion of a view id at a given index of the container (the index
argument of createComponent); an index at or beyond the length appends. -/
def insertViewAt : List Nat → Nat → Nat → List Nat
  | l, 0, v => v :: l
  | [], _ + 1, v => [v]
  | x :: xs, n + 1, v => x :: insertViewAt xs n v

/-- Instantiation of a factory: the empty-outlet placeholder factory yields
a fresh proxy instance with an unset ViewChild outlet; any other factory
yields a real instance carrying the factory's tag. -/
def instantiate (f : Factory) : Instance :=
  match f.componentType with
  | .emptyOutletCmp => .emptyOutlet none
  | .comp _ => .real f.tag

/-- activateWith, in source order: throws alreadyActivated when active;
records the route; reads the future snapshot's route config through the
non-null assertion (throwing when null); resolves a factory with the
explicit resolver when non-null and the outlet's own resolver otherwise
(throwing on a miss); obtains the child scope from getOrCreateContext;
builds an OutletInjector; creates the component at index location.length;
marks for change detection; then either subscribes to a produced proxy's
event channels (emitting no activate event) or emits one activate event
with the produced instance. -/
def RouterOutlet.activateWith (s : RouterOutlet) (activatedRoute : ActivatedRoute)
    (resolver : Option CFResolver) : MResult Unit :=
  if s.isActivated then ⟨s, .error .alreadyActivated⟩
  else
    let s1 := {s with _activatedRoute := some activatedRoute}
    match activatedRoute._futureSnapshot.routeConfig with
    | none => ⟨s1, .error .nullRouteConfig⟩
    | some cfg =>
        match resolveComponentFactory (resolver.getD s.resolver) cfg.component with
        | none => ⟨s1, .error .factoryNotFound⟩
        | some factory =>
            let goc := s1.parentContexts.getOrCreateContext s1.name
            let inj : OutletInjector := ⟨activatedRoute, goc.1.children, s1.locationInjector⟩
            let inst := instantiate factory
            let ref : CompRef := .mk s1.nextRefId inst
            let s2 := {s1 with
                        parentContexts := goc.2,
                        activated := some ref,
                        location := insertViewAt s1.location s1.location.length ref.refId,
                        nextRefId := s1.nextRefId + 1,
                        lastInjector := some inj,
                        markedForCheck := true}
            match inst with
            | .emptyOutlet _ => ⟨{s2 with relaySubscribed := true}, .ok ()⟩
            | .real t => ⟨{s2 with
                            activateEvents := s2.activateEvents ++ [some (.real t)]}, .ok ()⟩

/-- ngOnInit: when not yet activated and the registry holds a context for
the outlet's name with a pending route, performs attach when the context
has a detached-view handle and activateWith with the context's resolver
override otherwise; in every other case changes nothing. -/
def RouterOutlet.ngOnInit (s : RouterOutlet) : MResult Unit :=
  if s.activated.isSome then ⟨s, .ok ()⟩
  else
    match s.parentContexts.getContext s.name with
    | none => ⟨s, .ok ()⟩
    | some ctx =>
        match ctx.route with
        | none => ⟨s, .ok ()⟩
        | some r =>
            match ctx.attachRef with
            | some ref => ⟨s.attach ref r, .ok ()⟩
            | none => s.activateWith r ctx.resolver

/-- Relay established by the proxy subscription in activateWith: a relayed
activate event is re-emitted as the outlet's own exactly when the
subscription is in place. -/
def relayActivate (s : RouterOutlet) (ev : Option Instance) : RouterOutlet :=
  if s.relaySubscribed then {s with activateEvents := s.activateEvents ++ [ev]} else s

/-- Relay established by the proxy subscription in activateWith, deactivate
channel. -/
def relayDeactivate (s : RouterOutlet) (ev : Option Instance) : RouterOutlet :=
  if s.relaySubscribed then {s with deactivateEvents := s.deactivateEvents ++ [ev]} else s

/-- State produced by a successful activateWith from state s with route r
and resolved factory f, written out explicitly. -/
def activateSuccessState (s : RouterOutlet) (r : ActivatedRoute) (f : Factory) : RouterOutlet :=
  let goc := s.parentContexts.getOrCreateContext s.name
  let inst := instantiate f
  let base := {s with
      _activatedRoute := some r,
      parentContexts := goc.2,
      activated := some (CompRef.mk s.nextRefId inst),
      location := insertViewAt s.location s.location.length s.nextRefId,
      nextRefId := s.nextRefId + 1,
      lastInjector := some ⟨r, goc.1.children, s.locationInjector⟩,
      markedForCheck := true}
  match inst with
  | .emptyOutlet _ => {base with relaySubscribed := true}
  | .real t => {base with activateEvents := base.activateEvents ++ [some (.real t)]}

/-- State produced by a completed deactivate from an activated state, with
captured component c, written out explicitly. -/
def deactivateSuccessState (s : RouterOutlet) (ref : CompRef) (c : Option Instance) :
    RouterOutlet :=
  let s1 := {s with activated := none, _activatedRoute := none,
                    destroyedViews := s.destroyedViews ++ [ref.refId],
                    location := s.location.erase ref.refId}
  if isEmptyInstance c then s1
  else {s1 with deactivateEvents := s1.deactivateEvents ++ [c]}

/-- Operations on the outlet as invoked by the navigation engine or the
reuse strategy. -/
inductive Op where
  | activateOp (r : ActivatedRoute) (res : Option CFResolver)
  | deactivateOp
  | detachOp
  | attachOp (ref : CompRef) (r : ActivatedRoute)
  | initOp

/-- One completed operation: none when the method throws (the operation did
not complete). -/
def step (s : RouterOutlet) : Op → Option RouterOutlet
  | .activateOp r res =>
      match s.activateWith r res with
      | ⟨s', .ok _⟩ => some s'
      | ⟨_, .error _⟩ => none
  | .deactivateOp =>
      match s.deactivate with
      | ⟨s', .ok _⟩ => some s'
      | ⟨_, .error _⟩ => none
  | .detachOp =>
      match s.detach with
      | ⟨s', .ok _⟩ => some s'
      | ⟨_, .error _⟩ => none
  | .attachOp ref r => some (s.attach ref r)
  | .initOp =>
      match s.ngOnInit with
      | ⟨s', .ok _⟩ => some s'
      | ⟨_, .error _⟩ => none

/-- Sequential execution of operations, defined only when every operation
completes. -/
def runOps (s : RouterOutlet) : List Op → Option RouterOutlet
  | [] => some s
  | op :: ops =>
      match step s op with
      | none => none
      | some s' => runOps s' ops

/-- A concrete inactive outlet: primary name, a resolver knowing a real
component and the empty-outlet placeholder, empty registry, empty
container. -/
def wOutlet : RouterOutlet :=
  { activated := none, _activatedRoute := none, name := "primary",
    resolver := [(.comp 1, 10), (.emptyOutletCmp, 99)], parentContexts := .mk [],
    location := [], locationInjector := [(.otherToken 3, .plainV 7)], nextRefId := 5,
    activateEvents := [], deactivateEvents := [], destroyedViews := [],
    markedForCheck := false, relaySubscribed := false, lastInjector := none }

/-- A concrete route configured with the real component. -/
def wRouteReal : ActivatedRoute :=
  ⟨⟨some ⟨.comp 1⟩, []⟩, ⟨some ⟨.comp 1⟩, [("k", 3)]⟩⟩

/-- A concrete route whose route config is null. -/
def wRouteNullCfg : ActivatedRoute := ⟨⟨none, []⟩, ⟨none, []⟩⟩

/-- A concrete route configured with a component no resolver entry
covers. -/
def wRouteUnknown : ActivatedRoute := ⟨⟨some ⟨.comp 2⟩, []⟩, ⟨some ⟨.comp 2⟩, []⟩⟩

/-- A concrete route configured with the empty-outlet placeholder. -/
def wRouteEmpty : ActivatedRoute :=
  ⟨⟨some ⟨.emptyOutletCmp⟩, []⟩, ⟨some ⟨.emptyOutletCmp⟩, [("e", 1)]⟩⟩

/-- A concrete active outlet whose activated instance is a proxy holding a
nested outlet activated with a real component. -/
def wProxyActive : RouterOutlet :=
  {wOutlet with
    activated := some (.mk 5 (.emptyOutlet (some (.mk (some (.mk 7 (.real 42)))
      (some wRouteReal))))),
    _activatedRoute := some wRouteEmpty,
    location := [5]}

/-- A concrete active outlet holding a real component instance. -/
def wRealActive : RouterOutlet :=
  {wOutlet with
    activated := some (.mk 5 (.real 10)),
    _activatedRoute := some wRouteReal,
    location := [5]}

/-- A concrete registry context carrying a pending route and no detached
handle. -/
def wCtx : OutletContext := .mk (some wRouteReal) none none (.mk [])

/-- A concrete inactive outlet whose registry already holds a context for
its name with a pending route. -/
def wCtxOutlet : RouterOutlet :=
  {wOutlet with parentContexts := .mk [("primary", wCtx)]}

/-- Complete case analysis of activateWith: the alreadyActivated throw with
the state untouched; the two mid-construction throws, each leaving the
route field already overwritten; and the success case. -/
theorem activateWith_spec (s : RouterOutlet) (r : ActivatedRoute) (res : Option CFResolver) :
    ((∃ v, s.activated = some v) ∧ s.activateWith r res = ⟨s, .error .alreadyActivated⟩)
  ∨ (s.activated = none ∧ r._futureSnapshot.routeConfig = none ∧
       s.activateWith r res = ⟨{s with _activatedRoute := some r}, .error .nullRouteConfig⟩)
  ∨ (∃ cfg, s.activated = none ∧ r._futureSnapshot.routeConfig = some cfg ∧
       resolveComponentFactory (res.getD s.resolver) cfg.component = none ∧
       s.activateWith r res = ⟨{s with _activatedRoute := some r}, .error .factoryNotFound⟩)
  ∨ (∃ cfg f, s.activated = none ∧ r._futureSnapshot.routeConfig = some cfg ∧
       resolveComponentFactory (res.getD s.resolver) cfg.component = some f ∧
       s.activateWith r res = ⟨activateSuccessState s r f, .ok ()⟩) := by
  cases hA : s.activated with
  | some v =>
      left
      refine ⟨⟨v, rfl⟩, ?_⟩
      simp only [RouterOutlet.activateWith, RouterOutlet.isActivated, hA, Option.isSome_some,
        if_true]
  | none =>
      right
      cases hc : r._futureSnapshot.routeConfig with
      | none =>
          left
          refine ⟨rfl, rfl, ?_⟩
          simp only [RouterOutlet.activateWith, RouterOutlet.isActivated, hA, hc,
            Option.isSome_none, Bool.false_eq_true, if_false]
      | some cfg =>
          right
          cases hf : resolveComponentFactory (res.getD s.resolver) cfg.component with
          | none =>
              left
              refine ⟨cfg, rfl, rfl, hf, ?_⟩
              simp only [RouterOutlet.activateWith, RouterOutlet.isActivated, hA, hc, hf,
                Option.isSome_none, Bool.false_eq_true, if_false]
          | some f =>
              right
              refine ⟨cfg, f, rfl, rfl, hf, ?_⟩
              simp only [RouterOutlet.activateWith, RouterOutlet.isActivated, hA, hc, hf,
                Option.isSome_none, Bool.false_eq_true, if_false, activateSuccessState]
              cases hi : instantiate f <;> simp only [hi] <;> rfl

/-- Complete case analysis of deactivate: the inactive no-op; the throw of
the component getter propagating with the state untouched; and the
completed case. -/
theorem deactivate_spec (s : RouterOutlet) :
    (s.activated = none ∧ s.deactivate = ⟨s, .ok ()⟩)
  ∨ (∃ ref e, s.activated = some ref ∧ componentOf s.activated = .error e ∧
       s.deactivate = ⟨s, .error e⟩)
  ∨ (∃ ref c, s.activated = some ref ∧ componentOf s.activated = .ok c ∧
       s.deactivate = ⟨deactivateSuccessState s ref c, .ok ()⟩) := by
  cases hA : s.activated with
  | none =>
      left
      refine ⟨rfl, ?_⟩
      simp only [RouterOutlet.deactivate, hA]
  | some ref =>
      right
      cases hc : componentOf (some ref) with
      | error e =>
          left
          refine ⟨ref, e, rfl, rfl, ?_⟩
          simp only [RouterOutlet.deactivate, hA, hc]
      | ok c =>
          right
          refine ⟨ref, c, rfl, rfl, ?_⟩
          simp only [RouterOutlet.deactivate, hA, hc, deactivateSuccessState]
          split <;> rfl

/-- Projection of activateSuccessState: the activated field holds the
freshly created component ref. -/
theorem activateSuccessState_activated (s : RouterOutlet) (r : ActivatedRoute) (f : Factory) :
    (activateSuccessState s r f).activated = some (.mk s.nextRefId (instantiate f)) := by
  unfold activateSuccessState
  cases instantiate f <;> rfl

/-- Projection of activateSuccessState: the route field holds the supplied
route. -/
theorem activateSuccessState_route (s : RouterOutlet) (r : ActivatedRoute) (f : Factory) :
    (activateSuccessState s r f)._activatedRoute = some r := by
  unfold activateSuccessState
  cases instantiate f <;> rfl

/-- Projection of activateSuccessState: the view container after creation
at index location.length. -/
theorem activateSuccessState_location (s : RouterOutlet) (r : ActivatedRoute) (f : Factory) :
    (activateSuccessState s r f).location =
      insertViewAt s.location s.location.length s.nextRefId := by
  unfold activateSuccessState
  cases instantiate f <;> rfl

/-- Projection of activateSuccessState: the injector handed to component
creation. -/
theorem activateSuccessState_lastInjector (s : RouterOutlet) (r : ActivatedRoute) (f : Factory) :
    (activateSuccessState s r f).lastInjector =
      some ⟨r, (s.parentContexts.getOrCreateContext s.name).1.children, s.locationInjector⟩ := by
  unfold activateSuccessState
  cases instantiate f <;> rfl

/-- Inserting at the index equal to the current length appends at the
end. -/
theorem insertViewAt_length (l : List Nat) (v : Nat) :
    insertViewAt l l.length v = l ++ [v] := by
  induction l with
  | nil => rfl
  | cons x xs ih => simpa [insertViewAt] using ih

/-- A successful activateWith reaches the success state for some resolved
factory, from an inactive outlet. -/
theorem activateWith_ok_shape (s : RouterOutlet) (r : ActivatedRoute) (res : Option CFResolver)
    (h : (s.activateWith r res).result = .ok ()) :
    ∃ cfg f, s.activated = none ∧ r._futureSnapshot.routeConfig = some cfg ∧
      resolveComponentFactory (res.getD s.resolver) cfg.component = some f ∧
      (s.activateWith r res).state = activateSuccessState s r f := by
  rcases activateWith_spec s r res with ⟨_, heq⟩ | ⟨_, _, heq⟩ | ⟨_, _, _, _, heq⟩ |
    ⟨cfg, f, hA, hc, hf, heq⟩
  · rw [heq] at h; exact absurd h (by simp)
  · rw [heq] at h; exact absurd h (by simp)
  · rw [heq] at h; exact absurd h (by simp)
  · exact ⟨cfg, f, hA, hc, hf, by rw [heq]⟩

/-- A completed activateWith step lands in a state whose two nullable
fields are both set. -/
theorem step_activate_fields (s s' : RouterOutlet) (r : ActivatedRoute)
    (res : Option CFResolver) (h : step s (.activateOp r res) = some s') :
    s'.activated.isSome = true ∧ s'._activatedRoute = some r := by
  simp only [step] at h
  cases hm : s.activateWith r res with
  | mk st rst =>
      rw [hm] at h
      cases rst with
      | error e => exact absurd h (by simp)
      | ok v =>
          simp only [Option.some.injEq] at h
          subst h
          have hok : (s.activateWith r res).result = .ok () := by rw [hm]
          obtain ⟨cfg, f, _, _, _, hst⟩ := activateWith_ok_shape s r res hok
          rw [hm] at hst
          simp only at hst
          rw [hst, activateSuccessState_activated, activateSuccessState_route]
          exact ⟨rfl, rfl⟩

/-- A completed deactivate step lands in a state whose two nullable fields
are both cleared. -/
theorem step_deactivate_fields (s s' : RouterOutlet)
    (h : step s .deactivateOp = some s') :
    (s.activated = none → s' = s) ∧
    (s.activated.isSome = true → s'.activated = none ∧ s'._activatedRoute = none) := by
  simp only [step] at h
  rcases deactivate_spec s with ⟨hA, heq⟩ | ⟨ref, e, hA, _, heq⟩ | ⟨ref, c, hA, _, heq⟩
  · rw [heq] at h
    simp only [Option.some.injEq] at h
    subst h
    exact ⟨fun _ => rfl, fun hs => by rw [hA] at hs; exact absurd hs (by simp)⟩
  · rw [heq] at h
    exact absurd h (by simp)
  · rw [heq] at h
    simp only [Option.some.injEq] at h
    subst h
    refine ⟨fun hn => by rw [hn] at hA; exact absurd hA (by simp), fun _ => ?_⟩
    unfold deactivateSuccessState
    split <;> exact ⟨rfl, rfl⟩

/-- A completed detach step clears both nullable fields. -/
theorem step_detach_fields (s s' : RouterOutlet)
    (h : step s .detachOp = some s') :
    s'.activated = none ∧ s'._activatedRoute = none := by
  simp only [step, RouterOutlet.detach] at h
  cases hA : s.activated with
  | none => rw [hA] at h; exact absurd h (by simp)
  | some ref =>
      rw [hA] at h
      simp only [Option.some.injEq] at h
      subst h
      exact ⟨rfl, rfl⟩

/-- An attach step sets both nullable fields. -/
theorem step_attach_fields (s s' : RouterOutlet) (ref : CompRef) (r : ActivatedRoute)
    (h : step s (.attachOp ref r) = some s') :
    s'.activated = some ref ∧ s'._activatedRoute = some r := by
  simp only [step, RouterOutlet.attach] at h
  simp only [Option.some.injEq] at h
  subst h
  exact ⟨rfl, rfl⟩

/-- A completed ngOnInit step preserves the coupling of the two nullable
fields. -/
theorem step_init_fields (s s' : RouterOutlet)
    (hinv : s.activated.isSome = s._activatedRoute.isSome)
    (h : step s .initOp = some s') :
    s'.activated.isSome = s'._activatedRoute.isSome := by
  simp only [step, RouterOutlet.ngOnInit] at h
  by_cases hA : s.activated.isSome
  · rw [if_pos hA] at h
    simp only [Option.some.injEq] at h
    subst h
    exact hinv
  · rw [if_neg hA] at h
    cases hctx : s.parentContexts.getContext s.name with
    | none =>
        simp only [hctx, Option.some.injEq] at h
        subst h
        exact hinv
    | some ctx =>
        simp only [hctx] at h
        cases hr : ctx.route with
        | none =>
            simp only [hr, Option.some.injEq] at h
            subst h
            exact hinv
        | some r =>
            simp only [hr] at h
            cases ha : ctx.attachRef with
            | some ref =>
                simp only [ha, Option.some.injEq] at h
                subst h
                rfl
            | none =>
                simp only [ha] at h
                have h' : step s (.activateOp r ctx.resolver) = some s' := by
                  simp only [step]
                  exact h
                have := step_activate_fields s s' r ctx.resolver h'
                rw [this.1, this.2]
                rfl

/-- Every completed step preserves the invariant coupling the activated
view handle and the activated route. -/
theorem step_inv (s s' : RouterOutlet) (op : Op)
    (hinv : s.activated.isSome = s._activatedRoute.isSome)
    (h : step s op = some s') :
    s'.activated.isSome = s'._activatedRoute.isSome := by
  cases op with
  | activateOp r res =>
      have := step_activate_fields s s' r res h
      rw [this.1, this.2]
      rfl
  | deactivateOp =>
      have hd := step_deactivate_fields s s' h
      cases hA : s.activated with
      | none => rw [hd.1 hA]; exact hinv
      | some ref =>
          have := hd.2 (by rw [hA]; rfl)
          rw [this.1, this.2]
          rfl
  | detachOp =>
      have := step_detach_fields s s' h
      rw [this.1, this.2]
      rfl
  | attachOp ref r =>
      have := step_attach_fields s s' ref r h
      rw [this.1, this.2]
      rfl
  | initOp => exact step_init_fields s s' hinv h

/-- The invariant holds after any sequence of completed operations. -/
theorem runOps_inv (ops : List Op) (s0 s : RouterOutlet)
    (h0 : s0.activated.isSome = s0._activatedRoute.isSome)
    (h : runOps s0 ops = some s) :
    s.activated.isSome = s._activatedRoute.isSome := by
  induction ops generalizing s0 with
  | nil =>
      unfold runOps at h
      simp only [Option.some.injEq] at h
      subst h
      exact h0
  | cons op ops ih =>
      unfold runOps at h
      cases hs : step s0 op with
      | none => rw [hs] at h; exact absurd h (by simp)
      | some s1 =>
          rw [hs] at h
          exact ih s1 (step_inv s0 s1 op h0 hs) h

/-- C1 counterexample: from a concrete Inactive outlet, activateWith on a
route whose component no resolver entry covers fails during resolver
lookup, yet afterwards the outlet's activatedRoute field holds the
requested route — it is not null as the claim states. -/
theorem c1_counterexample :
    (wOutlet.activateWith wRouteUnknown none).result = .error .factoryNotFound
  ∧ (wOutlet.activateWith wRouteUnknown none).state._activatedRoute = some wRouteUnknown
  ∧ (wOutlet.activateWith wRouteUnknown none).state._activatedRoute ≠ none :=
  ⟨rfl, rfl, fun hc => Option.noConfusion hc⟩

/-- C1 (amended): activate while Active always fails with the
already-activated error and leaves the outlet unchanged; an activate that
fails later (during route-config access or resolver lookup) leaves the
outlet Inactive — no view created, no event emitted, container untouched —
but with activatedRoute already overwritten to the requested route, so the
outlet is not left entirely unchanged. -/
theorem c1_failed_activate (s : RouterOutlet) (r : ActivatedRoute) (res : Option CFResolver)
    (v : CompRef) (e : OutletError) :
    (s.activated = some v → s.activateWith r res = ⟨s, .error .alreadyActivated⟩)
  ∧ (s.activated = none → (s.activateWith r res).result = .error e →
       (s.activateWith r res).state = {s with _activatedRoute := some r}) := by
  rcases activateWith_spec s r res with ⟨⟨w, hw⟩, heq⟩ | ⟨hA, _, heq⟩ |
    ⟨cfg, hA, _, _, heq⟩ | ⟨cfg, f, hA, _, _, heq⟩
  · refine ⟨fun _ => heq, fun hn _ => ?_⟩
    rw [hn] at hw
    exact absurd hw (by simp)
  · refine ⟨fun hv => ?_, fun _ _ => by rw [heq]⟩
    rw [hv] at hA
    exact absurd hA (by simp)
  · refine ⟨fun hv => ?_, fun _ _ => by rw [heq]⟩
    rw [hv] at hA
    exact absurd hA (by simp)
  · refine ⟨fun hv => ?_, fun _ herr => ?_⟩
    · rw [hv] at hA
      exact absurd hA (by simp)
    · rw [heq] at herr
      exact absurd herr (by simp)

/-- C1 witness: the amended theorem applied at a concrete Inactive outlet
and a route with a null route config. -/
theorem c1_failed_activate_witness :
    (wOutlet.activateWith wRouteNullCfg none).state =
      {wOutlet with _activatedRoute := some wRouteNullCfg} :=
  (c1_failed_activate wOutlet wRouteNullCfg none (.mk 0 (.real 0)) .nullRouteConfig).2 rfl rfl

/-- C2: at the failing input — an outlet whose activated instance is a
pass-through proxy whose nested outlet is activated with a real component —
deactivate completes, destroys the view, clears the route, and still emits
a deactivate event carrying the unwrapped nested component, although that
component came from a proxy. The suppression branch compares the
already-unwrapped captured value against the proxy class, so it can never
fire, contradicting the claim and the code's own comment above it. -/
theorem c2_proxy_deactivate_emits :
    wProxyActive.deactivate.result = .ok ()
  ∧ wProxyActive.deactivate.state.deactivateEvents = [some (.real 42)]
  ∧ wProxyActive.deactivate.state.activated = none
  ∧ wProxyActive.deactivate.state._activatedRoute = none
  ∧ wProxyActive.deactivate.state.destroyedViews = [5] :=
  ⟨rfl, rfl, rfl, rfl, rfl⟩

/-- C3 counterexample: the claimed iff-invariant fails after a completed
operation at a concrete input. A failed activateWith on a concrete
Inactive outlet leaves activatedRoute set with activated still null; the
subsequent deactivate on that outlet completes (it is the Inactive no-op),
yet in the resulting state the activated handle is null while the
activated route is not, so the handle and the route are not both null or
both non-null after this completed operation. -/
theorem c3_counterexample :
    (wOutlet.activateWith wRouteUnknown none).state.deactivate.result = .ok ()
  ∧ (wOutlet.activateWith wRouteUnknown none).state.deactivate.state.activated = none
  ∧ (wOutlet.activateWith wRouteUnknown none).state.deactivate.state._activatedRoute =
      some wRouteUnknown
  ∧ (wOutlet.activateWith wRouteUnknown none).state.deactivate.state.activated.isSome ≠
      (wOutlet.activateWith wRouteUnknown none).state.deactivate.state._activatedRoute.isSome :=
  ⟨rfl, rfl, rfl, fun h => Bool.noConfusion h⟩

/-- C3 (amended): in every state reached from an invariant-satisfying
start by a sequence of operations that all completed (none threw) the
activated handle is non-null exactly when the activated route is non-null;
the invariant also holds after one more completed step, and that step
leaves isActivated true when it was a successful activateWith or an attach
and false when it was a completed deactivate or detach. The restriction to
throw-free histories is necessary: an activateWith that fails mid-way
overwrites the route field while leaving the handle null, and a later
deactivate completes as a no-op preserving that violation. -/
theorem c3_activation_invariant (s0 s s' : RouterOutlet) (ops : List Op) (op : Op)
    (h0 : s0.activated.isSome = s0._activatedRoute.isSome)
    (h : runOps s0 ops = some s)
    (hstep : step s op = some s') :
    (s.activated.isSome = s._activatedRoute.isSome)
  ∧ (s'.activated.isSome = s'._activatedRoute.isSome)
  ∧ (∀ r res, op = .activateOp r res → s'.isActivated = true)
  ∧ (∀ ref r, op = .attachOp ref r → s'.isActivated = true)
  ∧ (op = .deactivateOp → s'.isActivated = false)
  ∧ (op = .detachOp → s'.isActivated = false) := by
  have hinv := runOps_inv ops s0 s h0 h
  refine ⟨hinv, step_inv s s' op hinv hstep, ?_, ?_, ?_, ?_⟩
  · intro r res hop
    subst hop
    have := step_activate_fields s s' r res hstep
    simp [RouterOutlet.isActivated, this.1]
  · intro ref r hop
    subst hop
    have := step_attach_fields s s' ref r hstep
    simp [RouterOutlet.isActivated, this.1]
  · intro hop
    subst hop
    have hd := step_deactivate_fields s s' hstep
    cases hA : s.activated with
    | none =>
        rw [hd.1 hA]
        simp [RouterOutlet.isActivated, hA]
    | some ref =>
        have := hd.2 (by rw [hA]; rfl)
        simp [RouterOutlet.isActivated, this.1]
  · intro hop
    subst hop
    have := step_detach_fields s s' hstep
    simp [RouterOutlet.isActivated, this.1]

/-- C3 witness: the invariant theorem applied at a concrete inactive start
state with the empty operation sequence and an attach step. -/
theorem c3_activation_invariant_witness :
    ((wOutlet.attach (.mk 0 (.real 1)) wRouteReal).activated.isSome =
      (wOutlet.attach (.mk 0 (.real 1)) wRouteReal)._activatedRoute.isSome)
  ∧ (wOutlet.attach (.mk 0 (.real 1)) wRouteReal).isActivated = true := by
  have h := c3_activation_invariant wOutlet wOutlet
    (wOutlet.attach (.mk 0 (.real 1)) wRouteReal) [] (.attachOp (.mk 0 (.real 1)) wRouteReal)
    rfl rfl rfl
  exact ⟨h.2.1, h.2.2.2.1 (.mk 0 (.real 1)) wRouteReal rfl⟩

/-- Projection of activateSuccessState in the real-instance case: exactly
one activate event is appended and the relay subscription is untouched. -/
theorem activateSuccessState_real_events (s : RouterOutlet) (r : ActivatedRoute)
    (f : Factory) (t : Nat) (ht : instantiate f = .real t) :
    (activateSuccessState s r f).activateEvents = s.activateEvents ++ [some (.real t)]
  ∧ (activateSuccessState s r f).relaySubscribed = s.relaySubscribed := by
  unfold activateSuccessState
  rw [ht]
  exact ⟨rfl, rfl⟩

/-- Projection of activateSuccessState in the proxy case: no activate event
and the relay subscription is established. -/
theorem activateSuccessState_proxy_events (s : RouterOutlet) (r : ActivatedRoute)
    (f : Factory) (oo : Option NestedOutlet) (ht : instantiate f = .emptyOutlet oo) :
    (activateSuccessState s r f).activateEvents = s.activateEvents
  ∧ (activateSuccessState s r f).relaySubscribed = true
  ∧ (activateSuccessState s r f).deactivateEvents = s.deactivateEvents := by
  unfold activateSuccessState
  rw [ht]
  exact ⟨rfl, rfl, rfl⟩

/-- C4: a successful activateWith — the factory hypothesis is stated
against the resolver actually used, the explicit argument when non-null and
the outlet's own default otherwise — creates the configured view at
insertion index location.length, so the container becomes the old view
list with the new view appended; a produced real instance is announced by
exactly one activate event carrying it, while a produced proxy instance is
announced by no activate event at all, the outlet instead establishing the
relay subscription under which every relayed activate or deactivate event
is re-emitted as the outlet's own. -/
theorem c4_successful_activate (s : RouterOutlet) (r : ActivatedRoute)
    (res : Option CFResolver) (cfg : RouteConfig) (f : Factory)
    (hA : s.activated = none)
    (hcfg : r._futureSnapshot.routeConfig = some cfg)
    (hf : resolveComponentFactory (res.getD s.resolver) cfg.component = some f) :
    (s.activateWith r res).result = .ok ()
  ∧ (s.activateWith r res).state.activated = some (.mk s.nextRefId (instantiate f))
  ∧ (s.activateWith r res).state.location = s.location ++ [s.nextRefId]
  ∧ (∀ t, instantiate f = .real t →
        (s.activateWith r res).state.activateEvents = s.activateEvents ++ [some (.real t)]
      ∧ (s.activateWith r res).state.relaySubscribed = s.relaySubscribed)
  ∧ (∀ oo, instantiate f = .emptyOutlet oo →
        (s.activateWith r res).state.activateEvents = s.activateEvents
      ∧ (s.activateWith r res).state.relaySubscribed = true
      ∧ (∀ ev, (relayActivate (s.activateWith r res).state ev).activateEvents =
            (s.activateWith r res).state.activateEvents ++ [ev])
      ∧ (∀ ev, (relayDeactivate (s.activateWith r res).state ev).deactivateEvents =
            (s.activateWith r res).state.deactivateEvents ++ [ev])) := by
  rcases activateWith_spec s r res with ⟨⟨w, hw⟩, heq⟩ | ⟨_, hcN, _⟩ |
    ⟨cfg', _, hc', hf', _⟩ | ⟨cfg', f', _, hc', hf', heq⟩
  · rw [hA] at hw
    exact absurd hw (by simp)
  · rw [hcfg] at hcN
    exact absurd hcN (by simp)
  · rw [hcfg] at hc'
    injection hc' with hcc
    rw [← hcc] at hf'
    rw [hf] at hf'
    exact absurd hf' (by simp)
  · rw [hcfg] at hc'
    injection hc' with hcc
    rw [← hcc] at hf'
    rw [hf] at hf'
    injection hf' with hff
    subst hff
    rw [heq]
    refine ⟨rfl, ?_, ?_, ?_, ?_⟩
    · simp only [activateSuccessState_activated]
    · simp only [activateSuccessState_location, insertViewAt_length]
    · intro t ht
      have hev := activateSuccessState_real_events s r f t ht
      exact ⟨hev.1, hev.2⟩
    · intro oo ht
      have hev := activateSuccessState_proxy_events s r f oo ht
      refine ⟨hev.1, hev.2.1, ?_, ?_⟩
      · intro ev
        simp [relayActivate, hev.2.1]
      · intro ev
        simp [relayDeactivate, hev.2.1]

/-- C4 witness: the theorem applied at a concrete Inactive outlet, once for
a route configured with a real component and once for a route configured
with the empty-outlet placeholder. -/
theorem c4_successful_activate_witness :
    (wOutlet.activateWith wRouteReal none).result = .ok ()
  ∧ (wOutlet.activateWith wRouteReal none).state.activateEvents = [some (.real 10)]
  ∧ (wOutlet.activateWith wRouteEmpty none).state.activateEvents = []
  ∧ (wOutlet.activateWith wRouteEmpty none).state.relaySubscribed = true := by
  have h1 := c4_successful_activate wOutlet wRouteReal none ⟨.comp 1⟩ ⟨.comp 1, 10⟩
    rfl rfl rfl
  have h2 := c4_successful_activate wOutlet wRouteEmpty none ⟨.emptyOutletCmp⟩
    ⟨.emptyOutletCmp, 99⟩ rfl rfl rfl
  have e1 := (h1.2.2.2.1 10 rfl).1
  have e2 := h2.2.2.2.2 none rfl
  refine ⟨h1.1, ?_, ?_, e2.2.1⟩
  · simpa [wOutlet] using e1
  · simpa [wOutlet] using e2.1

/-- C5: detach on an Inactive outlet fails with the not-activated error and
changes nothing; on an Active outlet it returns the activated handle,
removes the last view of the container while destroying nothing, and clears
both fields; attaching the returned handle with a route immediately
restores isActivated and a component observation identical to the one
before the detach, the very same component ref being reinstalled. -/
theorem c5_detach_attach (s s2 : RouterOutlet) (ref : CompRef) (r : ActivatedRoute)
    (hact : s.activated = some ref) (h2 : s2.activated = none) :
    s.detach.result = .ok ref
  ∧ s.detach.state.activated = none
  ∧ s.detach.state._activatedRoute = none
  ∧ s.detach.state.location = s.location.dropLast
  ∧ s.detach.state.destroyedViews = s.destroyedViews
  ∧ (s.detach.state.attach ref r).isActivated = true
  ∧ (s.detach.state.attach ref r).activated = s.activated
  ∧ (s.detach.state.attach ref r).component = s.component
  ∧ s2.detach = ⟨s2, .error .notActivated⟩ := by
  refine ⟨?_, ?_, ?_, ?_, ?_, ?_, ?_, ?_, ?_⟩ <;>
    simp [RouterOutlet.detach, RouterOutlet.attach, RouterOutlet.component,
      RouterOutlet.isActivated, hact, h2]

/-- C5 witness: the theorem applied at a concrete Active outlet holding a
real instance, with a concrete Inactive outlet for the error half. -/
theorem c5_detach_attach_witness :
    wRealActive.detach.result = .ok (.mk 5 (.real 10))
  ∧ (wRealActive.detach.state.attach (.mk 5 (.real 10)) wRouteReal).component =
      wRealActive.component
  ∧ wOutlet.detach = ⟨wOutlet, .error .notActivated⟩ := by
  have h := c5_detach_attach wRealActive wOutlet (.mk 5 (.real 10)) wRouteReal rfl rfl
  exact ⟨h.1, h.2.2.2.2.2.2.2.1, h.2.2.2.2.2.2.2.2⟩

/-- C6 counterexample: on a concrete Inactive outlet the isActivated query
does not fail with the not-activated error as the claim states: it is a
total boolean accessor and returns false, in contrast with the component
query on the same state. -/
theorem c6_counterexample :
    wOutlet.isActivated = false ∧ wOutlet.component = .error .notActivated :=
  ⟨rfl, rfl⟩

/-- C6 (amended): while Inactive, component and activatedRoute fail with
the not-activated error, isActivated instead returns false (it never
fails), and activatedRouteData returns the empty data object; while the
route field holds a route, activatedRouteData returns that route's snapshot
data payload. -/
theorem c6_query_operations (s sA : RouterOutlet) (rA : ActivatedRoute)
    (h1 : s.activated = none) (h2 : s._activatedRoute = none)
    (hA : sA._activatedRoute = some rA) :
    s.isActivated = false
  ∧ s.component = .error .notActivated
  ∧ s.activatedRoute = .error .notActivated
  ∧ s.activatedRouteData = []
  ∧ sA.activatedRouteData = rA.snapshot.data := by
  refine ⟨?_, ?_, ?_, ?_, ?_⟩ <;>
    simp [RouterOutlet.isActivated, RouterOutlet.component, RouterOutlet.activatedRoute,
      RouterOutlet.activatedRouteData, componentOf, routeOf, h1, h2, hA]

/-- C6 witness: the amended theorem applied at a concrete Inactive outlet
and a concrete Active one. -/
theorem c6_query_operations_witness :
    wOutlet.activatedRouteData = []
  ∧ wRealActive.activatedRouteData = [("k", 3)] := by
  have h := c6_query_operations wOutlet wRealActive wRouteReal rfl rfl rfl
  exact ⟨h.2.2.2.1, h.2.2.2.2⟩

/-- C7: the proxy's three accessors all return the null or empty sentinel
while its ViewChild outlet is unset, and delegate to the nested outlet once
it is present; in particular the owning outlet's component getter on an
outlet activated with a fresh proxy returns the null sentinel instead of
failing. -/
theorem c7_proxy_accessors (n : NestedOutlet) (s : RouterOutlet) (i : Nat)
    (hs : s.activated = some (.mk i (.emptyOutlet none))) :
    emptyComponent none = .ok none
  ∧ emptyActivatedRoute none = .ok none
  ∧ emptyActivatedRouteData none = .ok []
  ∧ emptyComponent (some n) = componentOf n.activatedOf
  ∧ emptyActivatedRoute (some n) = routeOf n.activatedOf n.routeOf
  ∧ s.component = .ok none := by
  refine ⟨rfl, rfl, rfl, rfl, rfl, ?_⟩
  simp [RouterOutlet.component, hs, componentOf, unwrapInstance, CompRef.inst]

/-- C7 witness: the theorem applied at a concrete nested outlet and a
concrete outlet freshly activated with a proxy. -/
theorem c7_proxy_accessors_witness :
    ({wOutlet with activated := some (.mk 5 (.emptyOutlet none))} :
      RouterOutlet).component = .ok none := by
  have h := c7_proxy_accessors (.mk none none)
    {wOutlet with activated := some (.mk 5 (.emptyOutlet none))} 5 rfl
  exact h.2.2.2.2.2

/-- C8: the injector handed to view creation by a successful activateWith
resolves the ActivatedRoute token to the route the outlet was activated
with and the ChildrenOutletContexts token to the registry scope nested
under the outlet's own name, and delegates every other token to the parent
resolver (the container's injector) with the notFoundValue convention
preserved unchanged. -/
theorem c8_outlet_injector (s : RouterOutlet) (r : ActivatedRoute)
    (res : Option CFResolver) (inj : OutletInjector) (tid : Nat) (nf : Option InjValue)
    (hok : (s.activateWith r res).result = .ok ())
    (hinj : (s.activateWith r res).state.lastInjector = some inj) :
    inj.route = r
  ∧ inj.childContexts = (s.parentContexts.getOrCreateContext s.name).1.children
  ∧ inj.parent = s.locationInjector
  ∧ inj.get .activatedRouteToken nf = .ok (.routeV r)
  ∧ inj.get .childrenOutletContextsToken nf =
      .ok (.contextsV (s.parentContexts.getOrCreateContext s.name).1.children)
  ∧ inj.get (.otherToken tid) nf = parentGet s.locationInjector (.otherToken tid) nf := by
  obtain ⟨cfg, f, _, _, _, hst⟩ := activateWith_ok_shape s r res hok
  rw [hst, activateSuccessState_lastInjector] at hinj
  simp only [Option.some.injEq] at hinj
  subst hinj
  refine ⟨rfl, rfl, rfl, ?_, ?_, ?_⟩ <;> simp [OutletInjector.get]

/-- C8 witness: the theorem applied at a concrete successful activation;
the delegated token is resolved by the concrete parent injector. -/
theorem c8_outlet_injector_witness :
    (OutletInjector.get ⟨wRouteReal, .mk [], [(.otherToken 3, .plainV 7)]⟩
        .activatedRouteToken none) = .ok (.routeV wRouteReal)
  ∧ (OutletInjector.get ⟨wRouteReal, .mk [], [(.otherToken 3, .plainV 7)]⟩
        (.otherToken 3) none) =
      parentGet wOutlet.locationInjector (.otherToken 3) none := by
  have h := c8_outlet_injector wOutlet wRouteReal none
    ⟨wRouteReal, .mk [], [(.otherToken 3, .plainV 7)]⟩ 3 none rfl rfl
  exact ⟨h.2.2.2.1, h.2.2.2.2.2⟩

/-- C9: on an outlet that is not yet activated, ngOnInit performs attach
with the context's detached handle when the registry holds a context for
the outlet's name with a pending route and a handle, performs activateWith
with the pending route and the context's resolver override when the handle
is absent, and changes nothing when there is no context or no pending
route; on an already-activated outlet ngOnInit changes nothing. -/
theorem c9_ngOnInit (s sA : RouterOutlet) (ctx : OutletContext) (r : ActivatedRoute)
    (ref : CompRef) (h1 : s.activated = none) (hA : sA.activated.isSome = true) :
    (s.parentContexts.getContext s.name = some ctx → ctx.route = some r →
       (ctx.attachRef = some ref → s.ngOnInit = ⟨s.attach ref r, .ok ()⟩)
     ∧ (ctx.attachRef = none → s.ngOnInit = s.activateWith r ctx.resolver))
  ∧ (s.parentContexts.getContext s.name = none → s.ngOnInit = ⟨s, .ok ()⟩)
  ∧ (s.parentContexts.getContext s.name = some ctx → ctx.route = none →
       s.ngOnInit = ⟨s, .ok ()⟩)
  ∧ sA.ngOnInit = ⟨sA, .ok ()⟩ := by
  refine ⟨?_, ?_, ?_, ?_⟩
  · intro hctx hr
    constructor
    · intro ha
      simp [RouterOutlet.ngOnInit, h1, hctx, hr, ha]
    · intro ha
      simp [RouterOutlet.ngOnInit, h1, hctx, hr, ha]
  · intro hctx
    simp [RouterOutlet.ngOnInit, h1, hctx]
  · intro hctx hr
    simp [RouterOutlet.ngOnInit, h1, hctx, hr]
  · simp [RouterOutlet.ngOnInit, hA]

/-- C9 witness: the theorem applied at a concrete lazily-created outlet
whose registry holds a pending route and no handle, and at a concrete
already-active outlet. -/
theorem c9_ngOnInit_witness :
    wCtxOutlet.ngOnInit = wCtxOutlet.activateWith wRouteReal none
  ∧ wRealActive.ngOnInit = ⟨wRealActive, .ok ()⟩ := by
  have h := c9_ngOnInit wCtxOutlet wRealActive wCtx wRouteReal (.mk 0 (.real 0)) rfl rfl
  exact ⟨(h.1 rfl rfl).2 rfl, h.2.2.2⟩

/-- C10: attach performs no activation-state check and cannot fail: from
any state, including an Active one, it silently overwrites the activated
handle and route with the supplied ones and appends the new host view,
destroying nothing, detaching nothing, and emitting no notification for the
previously activated view. -/
theorem c10_attach_unchecked (s : RouterOutlet) (ref : CompRef) (r : ActivatedRoute) :
    (s.attach ref r).activated = some ref
  ∧ (s.attach ref r)._activatedRoute = some r
  ∧ (s.attach ref r).location = s.location ++ [ref.refId]
  ∧ (s.attach ref r).destroyedViews = s.destroyedViews
  ∧ (s.attach ref r).deactivateEvents = s.deactivateEvents
  ∧ (s.attach ref r).activateEvents = s.activateEvents :=
  ⟨rfl, rfl, rfl, rfl, rfl, rfl⟩
